import Mathlib

/-! Shallow embedding of `src/mainapp.py` (Visa Roadmap Assistant).

The program is a single-file pipeline: a document-text extractor with a
remote primary path and a local fallback (`extract_text_from_pdf`,
`fallback_extract_text`), a roadmap request client
(`call_visa_roadmap_api`), two renderers (`convert_dict_to_markdown`,
`create_pdf_content`) and two "Generate" handlers (one for the
"Immigration Visa" selection, one for the other visa types).

Network responses, transport exceptions and document contents are inputs
of the embedded functions; user-visible `st.warning` / `st.error` calls
are modelled as an emitted message list; the display widgets are modelled
as a list of display items plus an optional download payload.  Python
string operations (`str.split`, `" ".join`, `str.strip`, `str.lower`,
truthiness) are embedded as executable functions on `List Char`. -/

namespace VisaRoadmap

/-- Whitespace as recognised by Python's `str.split()` / `str.strip()`
on the ASCII range: space, tab, newline, carriage return, vertical tab,
form feed. -/
def pyIsSpace (c : Char) : Bool :=
  c = ' ' || c = '\t' || c = '\n' || c = '\r' || c = Char.ofNat 11 || c = Char.ofNat 12

/-- Accumulator worker for Python `str.split()` with no argument: splits on
runs of whitespace and drops empty pieces.  The accumulator holds the
current word reversed. -/
def splitWsAux : List Char → List Char → List (List Char)
  | [], acc => if acc.isEmpty then [] else [acc.reverse]
  | c :: cs, acc =>
      if pyIsSpace c then
        if acc.isEmpty then splitWsAux cs [] else acc.reverse :: splitWsAux cs []
      else splitWsAux cs (c :: acc)

/-- Python `s.split()`: the whitespace-separated words of `s`. -/
def pySplit (l : List Char) : List (List Char) := splitWsAux l []

/-- Python `" ".join(ws)`: interleave the pieces with single spaces. -/
def joinSpace : List (List Char) → List Char
  | [] => []
  | [w] => w
  | w :: w2 :: ws => w ++ ' ' :: joinSpace (w2 :: ws)

/-- The normalization `" ".join(s.split())` used on both extraction paths
(`mainapp.py` lines 33 and 59). -/
def pyNormalize (s : String) : String := String.mk (joinSpace (pySplit s.data))

/-- Python `str.strip()`: drop whitespace from both ends. -/
def pyStrip (l : List Char) : List Char :=
  ((l.dropWhile pyIsSpace).reverse.dropWhile pyIsSpace).reverse

/-- Python `str.strip()` on strings. -/
def pyStripS (s : String) : String := String.mk (pyStrip s.data)

/-- Python `str.lower()` (ASCII case mapping suffices for the visa-type
strings the program lowers). -/
def pyLower (s : String) : String := String.mk (s.data.map Char.toLower)

/-- Fuelled worker for Python `s.split(sep)` with a non-empty separator:
leftmost non-overlapping matches, empty pieces kept. -/
def splitOnCharsAux (sep : List Char) : Nat → List Char → List Char → List (List Char)
  | _, [], acc => [acc.reverse]
  | 0, rest, acc => [acc.reverse ++ rest]
  | fuel + 1, c :: cs, acc =>
      if sep.isPrefixOf (c :: cs) then
        acc.reverse :: splitOnCharsAux sep fuel ((c :: cs).drop sep.length) []
      else
        splitOnCharsAux sep fuel cs (c :: acc)

/-- Python `s.split(sep)` for a non-empty separator (the program only
splits on the fixed bullet marker). -/
def splitOnChars (sep l : List Char) : List (List Char) :=
  if sep.isEmpty then [l] else splitOnCharsAux sep l.length l []

/-- Split a character list into its lines (separator `\n`, empties kept). -/
def splitLinesAux : List Char → List Char → List (List Char)
  | [], acc => [acc.reverse]
  | c :: cs, acc =>
      if c = '\n' then acc.reverse :: splitLinesAux cs []
      else splitLinesAux cs (c :: acc)

/-- Number of markdown section-heading lines (lines starting `## `) of a
rendered report. -/
def sectionCount (s : String) : Nat :=
  ((splitLinesAux s.data []).filter
    (fun line => List.isPrefixOf ("## ".data) line)).length

/-- User-visible status messages emitted through `st.warning` / `st.error`. -/
inductive Msg where
  | warning (text : String)
  | error (text : String)
deriving DecidableEq

/-- Outcome of the primary OCR request (`requests.post` to the RapidAPI
endpoint): either a response with a status code and the optional `text`
field of its JSON body, or an exception raised inside the `try` block. -/
inductive PrimaryOutcome where
  | resp (status : Nat) (textField : Option String)
  | exn (msg : String)
deriving DecidableEq

/-- The uploaded document as the local fallback parser sees it: either the
per-page texts `page.extract_text()` yields, or an exception raised while
reading it (e.g. `PyPDF2.PdfReader` failing). -/
inductive FallbackDoc where
  | pages (ps : List String)
  | exn (msg : String)
deriving DecidableEq

/-- `fallback_extract_text` (`mainapp.py` lines 42-63): concatenate every
page's text, normalize with `" ".join(text.split()).strip()`; on any
exception report the extraction error and return `""`. -/
def fallback_extract_text : FallbackDoc → String × List Msg
  | .pages ps => (pyStripS (pyNormalize (String.join ps)), [])
  | .exn m => ("", [Msg.error ("Error in text extraction: " ++ m)])

/-- `extract_text_from_pdf` (`mainapp.py` lines 6-40): on HTTP 200 return
the normalized `text` field (missing field defaults to `""`); on any other
status call the fallback (with no message of its own); on an exception
emit the fallback warning and call the fallback. -/
def extract_text_from_pdf (p : PrimaryOutcome) (doc : FallbackDoc) : String × List Msg :=
  match p with
  | .resp status textField =>
      if status = 200 then (pyNormalize (textField.getD ""), [])
      else fallback_extract_text doc
  | .exn _ =>
      let r := fallback_extract_text doc
      (r.1, Msg.warning "Using fallback PDF extraction method" :: r.2)

/-- The structured Immigration result dictionary; each field is `none`
when the key is absent from the JSON object. -/
structure ImmigrationDict where
  questionnaire : Option String
  job_roles : Option String
  noc_codes : Option (List String)
  crs_score : Option String
  roadmap : Option String
deriving DecidableEq

/-- A parsed roadmap-service JSON body: a mapping (Immigration) or a plain
string (other visa types). -/
inductive RoadmapResult where
  | dict (d : ImmigrationDict)
  | str (s : String)
deriving DecidableEq

/-- Outcome of the roadmap-service request: a response with a status code
and parsed body, or a transport exception. -/
inductive ApiOutcome where
  | resp (status : Nat) (body : RoadmapResult)
  | exn (msg : String)
deriving DecidableEq

/-- `call_visa_roadmap_api` (`mainapp.py` lines 65-96): 200 returns the
parsed body; 404 reports "Data Not Found" and falls through to the
implicit `None` return; other statuses report a generic API error and
return `None`; an exception reports its message and returns `None`. -/
def call_visa_roadmap_api : ApiOutcome → Option RoadmapResult × List Msg
  | .resp status body =>
      if status = 200 then (some body, [])
      else if status = 404 then
        (none, [Msg.error ("API Error: Data Not Found (" ++ toString status ++ ")")])
      else (none, [Msg.error ("API Error: " ++ toString status)])
  | .exn m => (none, [Msg.error ("API Error: " ++ m)])

/-- Python truthiness of the result dictionary (`if result:`): a dict is
truthy when non-empty, here abstracted as having at least one of the five
modelled keys present. -/
def dictTruthy (d : ImmigrationDict) : Bool :=
  d.questionnaire.isSome || d.job_roles.isSome || d.noc_codes.isSome ||
  d.crs_score.isSome || d.roadmap.isSome

/-- Python truthiness of `result` in the handlers' `if result:` guard:
`None` and the empty string are falsy. -/
def pyTruthy : Option RoadmapResult → Bool
  | none => false
  | some (.dict d) => dictTruthy d
  | some (.str s) => !s.data.isEmpty

/-- `create_pdf_content` (`mainapp.py` lines 132-148).  For a dict it
renders only the roadmap field; for a string it interpolates the global
`roadmap_type` (the full selected visa-type string) into the heading. -/
def create_pdf_content (roadmap_type : String) (data : RoadmapResult) : String :=
  match data with
  | .dict d =>
      String.intercalate "\n" ["# Immigration Roadmap\n", (d.roadmap.getD "") ++ "\n"]
  | .str s => "# " ++ roadmap_type ++ " Roadmap\n\n" ++ s

/-- The non-Immigration download file name
`f"{roadmap_type.lower()}_roadmap.pdf"` (`mainapp.py` line 249). -/
def downloadFileName (roadmap_type : String) : String :=
  pyLower roadmap_type ++ "_roadmap.pdf"

/-- One on-screen display element emitted by a Generate handler. -/
inductive DisplayItem where
  | subheader (text : String)
  | markdownText (text : String)
  | markdownResult (r : RoadmapResult)
deriving DecidableEq

/-- What a Generate handler renders: display elements in order, and the
download button's payload `(file content, file name)` when offered. -/
structure RenderOutput where
  sections : List DisplayItem
  download : Option (String × String)
deriving DecidableEq

/-- `convert_dict_to_markdown` (`mainapp.py` lines 98-130): the markdown
report with five numbered sections, reading every field with
`dict.get` defaults.  (Defined in the program but never called by either
handler.) -/
def convert_dict_to_markdown (d : ImmigrationDict) : String :=
  let qLines := (splitOnChars ("â—".data) (d.questionnaire.getD "").data).filterMap
    (fun line =>
      let t := pyStrip line
      if t.isEmpty then none else some ("- " ++ String.mk t ++ "\n"))
  let nocLines := (d.noc_codes.getD []).map (fun noc => "- " ++ pyStripS noc ++ "\n")
  String.intercalate "\n"
    (["# Immigration Profile Report\n",
      "## 1. Questionnaire and Response:\n"]
     ++ qLines
     ++ ["## 2. Job Roles Based on Education and Work Experience:\n",
         (d.job_roles.getD "") ++ "\n",
         "## 3. NOC Codes:\n"]
     ++ nocLines
     ++ ["## 4. CRS Score Breakdown:\n",
         (d.crs_score.getD "") ++ "\n",
         "## 5. Roadmap for Canada Immigration:\n",
         (d.roadmap.getD "") ++ "\n"])

/-- The Immigration "Generate" handler (`mainapp.py` lines 185-217) given
the client's return value.  It renders nothing when `result` is falsy;
otherwise it reads `result["roadmap"]`, `result["crs_score"]`,
`result["job_roles"]`, `result["noc_codes"]` with bracket access in that
order, so a missing key raises `KeyError` (and a plain-string result
raises `TypeError`); on success it renders the subheader, four expanders
(NOC codes as one markdown line each followed by a `---` rule) and the
download button with the roadmap-only PDF content. -/
def immigrationHandler (result : Option RoadmapResult) : Except String RenderOutput :=
  if pyTruthy result then
    match result with
    | none => Except.ok { sections := [], download := none }
    | some (.str _) => Except.error "TypeError: string indices must be integers"
    | some (.dict d) =>
      match d.roadmap with
      | none => Except.error "KeyError: roadmap"
      | some rm =>
        match d.crs_score with
        | none => Except.error "KeyError: crs_score"
        | some cs =>
          match d.job_roles with
          | none => Except.error "KeyError: job_roles"
          | some jr =>
            match d.noc_codes with
            | none => Except.error "KeyError: noc_codes"
            | some ncs =>
              Except.ok
                { sections :=
                    [DisplayItem.subheader "Your Immigration Roadmap",
                     DisplayItem.markdownText rm,
                     DisplayItem.markdownText cs,
                     DisplayItem.markdownText jr]
                    ++ ncs.flatMap (fun noc => [DisplayItem.markdownText noc,
                                             DisplayItem.markdownText "---"]),
                  download := some (create_pdf_content "Immigration Visa" (.dict d),
                                    "immigration_roadmap.pdf") }
  else Except.ok { sections := [], download := none }

/-- The non-Immigration "Generate" handler (`mainapp.py` lines 229-251)
given the selected visa type and the client's return value: when `result`
is truthy it renders the subheader, the result as one markdown block, and
the download button; otherwise nothing. -/
def nonImmigrationHandler (roadmap_type : String) (result : Option RoadmapResult) :
    RenderOutput :=
  match result with
  | some r =>
      if pyTruthy (some r) then
        { sections := [DisplayItem.subheader ("Your " ++ roadmap_type ++ " Roadmap"),
                       DisplayItem.markdownResult r],
          download := some (create_pdf_content roadmap_type r,
                            downloadFileName roadmap_type) }
      else { sections := [], download := none }
  | none => { sections := [], download := none }

/-- No two consecutive whitespace characters. -/
def noTwoConsecWsB : List Char → Bool
  | a :: b :: rest => (!(pyIsSpace a && pyIsSpace b)) && noTwoConsecWsB (b :: rest)
  | _ => true

/-- No leading and no trailing whitespace character. -/
def noEdgeWsB (l : List Char) : Bool :=
  (match l.head? with | none => true | some c => !pyIsSpace c) &&
  (match l.getLast? with | none => true | some c => !pyIsSpace c)

/-! Lemmas about the whitespace normalization `" ".join(s.split())`. -/

theorem splitWsAux_words : ∀ (s acc : List Char),
    (∀ c ∈ acc, pyIsSpace c = false) →
    ∀ w ∈ splitWsAux s acc, w ≠ [] ∧ ∀ c ∈ w, pyIsSpace c = false
  | [], acc, hacc, w, hw => by
      unfold splitWsAux at hw
      cases hae : acc.isEmpty with
      | true => simp [hae] at hw
      | false =>
          simp only [hae, Bool.false_eq_true, if_false, List.mem_singleton] at hw
          subst hw
          refine ⟨?_, ?_⟩
          · have : acc ≠ [] := by
              intro h0
              rw [h0] at hae
              simp at hae
            simpa using this
          · intro c hc
            exact hacc c (List.mem_reverse.mp hc)
  | c :: cs, acc, hacc, w, hw => by
      unfold splitWsAux at hw
      cases hsp : pyIsSpace c with
      | true =>
          rw [hsp] at hw
          simp only [if_true] at hw
          cases hae : acc.isEmpty with
          | true =>
              rw [hae] at hw
              simp only [if_true] at hw
              exact splitWsAux_words cs [] (by simp) w hw
          | false =>
              rw [hae] at hw
              simp only [Bool.false_eq_true, if_false, List.mem_cons] at hw
              rcases hw with hw | hw
              · subst hw
                refine ⟨?_, fun x hx => hacc x (List.mem_reverse.mp hx)⟩
                have : acc ≠ [] := by
                  intro h0; rw [h0] at hae; simp at hae
                simpa using this
              · exact splitWsAux_words cs [] (by simp) w hw
      | false =>
          rw [hsp] at hw
          simp only [Bool.false_eq_true, if_false] at hw
          refine splitWsAux_words cs (c :: acc) ?_ w hw
          intro x hx
          rcases List.mem_cons.mp hx with hx | hx
          · subst hx; exact hsp
          · exact hacc x hx

theorem pySplit_words (l : List Char) :
    ∀ w ∈ pySplit l, w ≠ [] ∧ ∀ c ∈ w, pyIsSpace c = false :=
  splitWsAux_words l [] (by simp)

theorem noTwoConsecWsB_of_all : ∀ w : List Char,
    (∀ c ∈ w, pyIsSpace c = false) → noTwoConsecWsB w = true
  | [], _ => rfl
  | [_], _ => rfl
  | a :: b :: r, h => by
      have ha : pyIsSpace a = false := h a (by simp)
      have hrest := noTwoConsecWsB_of_all (b :: r)
        (fun c hc => h c (List.mem_cons_of_mem a hc))
      simp [noTwoConsecWsB, ha, hrest]

theorem noTwoConsecWsB_cons_of_nonws (a : Char) (l : List Char)
    (ha : pyIsSpace a = false) : noTwoConsecWsB (a :: l) = noTwoConsecWsB l := by
  cases l with
  | nil => rfl
  | cons b r => simp [noTwoConsecWsB, ha]

theorem noTwoConsecWsB_append : ∀ (w : List Char),
    (∀ c ∈ w, pyIsSpace c = false) →
    ∀ l, noTwoConsecWsB l = true → noTwoConsecWsB (w ++ l) = true
  | [], _, _, hl => hl
  | a :: w', h, l, hl => by
      have ha : pyIsSpace a = false := h a (by simp)
      rw [List.cons_append, noTwoConsecWsB_cons_of_nonws a _ ha]
      exact noTwoConsecWsB_append w' (fun c hc => h c (List.mem_cons_of_mem a hc)) l hl

theorem joinSpace_cons_append : ∀ (w : List Char) (ws : List (List Char)),
    ∃ t, joinSpace (w :: ws) = w ++ t
  | w, [] => ⟨[], by simp [joinSpace]⟩
  | _, w2 :: ws => ⟨' ' :: joinSpace (w2 :: ws), rfl⟩

theorem joinSpace_noTwoConsec : ∀ ws : List (List Char),
    (∀ w ∈ ws, w ≠ [] ∧ ∀ c ∈ w, pyIsSpace c = false) →
    noTwoConsecWsB (joinSpace ws) = true
  | [], _ => rfl
  | [w], h => noTwoConsecWsB_of_all w (h w (by simp)).2
  | w :: w2 :: ws, h => by
      have hw := h w (by simp)
      have htail : noTwoConsecWsB (joinSpace (w2 :: ws)) = true :=
        joinSpace_noTwoConsec (w2 :: ws) (fun x hx => h x (List.mem_cons_of_mem w hx))
      show noTwoConsecWsB (w ++ ' ' :: joinSpace (w2 :: ws)) = true
      apply noTwoConsecWsB_append w hw.2
      obtain ⟨hne, hall⟩ := h w2 (by simp)
      obtain ⟨t, ht⟩ := joinSpace_cons_append w2 ws
      rw [ht] at htail ⊢
      cases hw2 : w2 with
      | nil => exact absurd hw2 hne
      | cons c w2' =>
          have hc : pyIsSpace c = false := hall c (by simp [hw2])
          have hsp : pyIsSpace ' ' = true := by decide
          rw [hw2, List.cons_append] at htail
          simp [noTwoConsecWsB, hc, hsp, htail]

theorem joinSpace_head_nonws : ∀ ws : List (List Char),
    (∀ w ∈ ws, w ≠ [] ∧ ∀ c ∈ w, pyIsSpace c = false) →
    ∀ c, (joinSpace ws).head? = some c → pyIsSpace c = false := by
  intro ws h c hc
  cases ws with
  | nil => simp [joinSpace] at hc
  | cons w ws' =>
      obtain ⟨hne, hall⟩ := h w (by simp)
      obtain ⟨t, ht⟩ := joinSpace_cons_append w ws'
      cases hw : w with
      | nil => exact absurd hw hne
      | cons a w'' =>
          rw [ht, hw, List.cons_append, List.head?_cons] at hc
          have : a = c := by injection hc
          subst this
          exact hall a (by simp [hw])

theorem joinSpace_last_nonws : ∀ ws : List (List Char),
    (∀ w ∈ ws, w ≠ [] ∧ ∀ c ∈ w, pyIsSpace c = false) →
    ∀ c, (joinSpace ws).getLast? = some c → pyIsSpace c = false
  | [], _, c, hc => by simp [joinSpace] at hc
  | [w], h, c, hc => by
      obtain ⟨hne, hall⟩ := h w (by simp)
      obtain ⟨h9, h10⟩ := List.mem_getLast?_eq_getLast hc
      rw [h10]
      exact hall _ (List.getLast_mem h9)
  | w :: w2 :: ws, h, c, hc => by
      have htail := joinSpace_last_nonws (w2 :: ws)
        (fun x hx => h x (List.mem_cons_of_mem w hx)) c
      apply htail
      obtain ⟨hne2, _⟩ := h w2 (by simp)
      obtain ⟨t, ht⟩ := joinSpace_cons_append w2 ws
      have hjne : joinSpace (w2 :: ws) ≠ [] := by
        rw [ht]
        intro h0
        exact hne2 (List.append_eq_nil.mp h0).1
      have step : joinSpace (w :: w2 :: ws) = w ++ ' ' :: joinSpace (w2 :: ws) := rfl
      rw [step, List.getLast?_append_of_ne_nil _ (by simp)] at hc
      have step2 : (' ' :: joinSpace (w2 :: ws)) = [' '] ++ joinSpace (w2 :: ws) := rfl
      rw [step2, List.getLast?_append_of_ne_nil _ hjne] at hc
      exact hc

theorem noEdgeWsB_eq_true (l : List Char)
    (h1 : ∀ c, l.head? = some c → pyIsSpace c = false)
    (h2 : ∀ c, l.getLast? = some c → pyIsSpace c = false) :
    noEdgeWsB l = true := by
  unfold noEdgeWsB
  rw [Bool.and_eq_true]
  constructor
  · cases hh : l.head? with
    | none => rfl
    | some c => simp [h1 c hh]
  · cases hg : l.getLast? with
    | none => rfl
    | some c => simp [h2 c hg]

theorem joinSplit_noTwoConsec (l : List Char) :
    noTwoConsecWsB (joinSpace (pySplit l)) = true :=
  joinSpace_noTwoConsec _ (pySplit_words l)

theorem joinSplit_noEdge (l : List Char) :
    noEdgeWsB (joinSpace (pySplit l)) = true :=
  noEdgeWsB_eq_true _ (joinSpace_head_nonws _ (pySplit_words l))
    (joinSpace_last_nonws _ (pySplit_words l))

theorem pyStrip_of_noEdgeWs (l : List Char) (h : noEdgeWsB l = true) :
    pyStrip l = l := by
  unfold noEdgeWsB at h
  rw [Bool.and_eq_true] at h
  obtain ⟨hh, hg⟩ := h
  unfold pyStrip
  have hd : l.dropWhile pyIsSpace = l := by
    cases l with
    | nil => rfl
    | cons c l' =>
        have hc : pyIsSpace c = false := by
          simp only [List.head?_cons] at hh
          simpa using hh
        simp [List.dropWhile_cons, hc]
  rw [hd]
  have hr : l.reverse.dropWhile pyIsSpace = l.reverse := by
    cases hrev : l.reverse with
    | nil => rfl
    | cons c r =>
        have hcl : l.getLast? = some c := by
          rw [← List.head?_reverse, hrev, List.head?_cons]
        have hc : pyIsSpace c = false := by
          rw [hcl] at hg
          simpa using hg
        simp [List.dropWhile_cons, hc]
  rw [hr, List.reverse_reverse]

theorem pyNormalize_data (s : String) :
    (pyNormalize s).data = joinSpace (pySplit s.data) := rfl

theorem pyStripS_pyNormalize (s : String) :
    pyStripS (pyNormalize s) = pyNormalize s := by
  show String.mk (pyStrip (pyNormalize s).data) = pyNormalize s
  rw [pyNormalize_data, pyStrip_of_noEdgeWs _ (joinSplit_noEdge s.data)]
  rfl

/-! Claim theorems. -/

/-- Claim C4: for every input document, the extracted text returned by
`extract_text_from_pdf` — via the primary 200 path, the fallback path, or
the total-failure path — contains no two consecutive whitespace
characters and no leading or trailing whitespace. -/
theorem C4_extract_text_whitespace_normalized (p : PrimaryOutcome) (doc : FallbackDoc) :
    noTwoConsecWsB ((extract_text_from_pdf p doc).1).data = true ∧
    noEdgeWsB ((extract_text_from_pdf p doc).1).data = true := by
  have base : ∀ s : String, noTwoConsecWsB (pyNormalize s).data = true ∧
      noEdgeWsB (pyNormalize s).data = true := fun s =>
    ⟨joinSplit_noTwoConsec s.data, joinSplit_noEdge s.data⟩
  have fb : ∀ d : FallbackDoc, noTwoConsecWsB ((fallback_extract_text d).1).data = true ∧
      noEdgeWsB ((fallback_extract_text d).1).data = true := by
    intro d
    cases d with
    | pages ps =>
        show noTwoConsecWsB (pyStripS (pyNormalize (String.join ps))).data = true ∧
          noEdgeWsB (pyStripS (pyNormalize (String.join ps))).data = true
        rw [pyStripS_pyNormalize]
        exact base _
    | exn m => exact ⟨rfl, rfl⟩
  cases p with
  | resp status tf =>
      have e : extract_text_from_pdf (.resp status tf) doc =
          (if status = 200 then (pyNormalize (tf.getD ""), [])
           else fallback_extract_text doc) := rfl
      by_cases h : status = 200
      · rw [e, if_pos h]
        exact base _
      · rw [e, if_neg h]
        exact fb doc
  | exn m => exact fb doc

/-- Claim C6: whenever the primary OCR call returns a non-200 response or
raises a transport exception, `extract_text_from_pdf` invokes
`fallback_extract_text` on the same document (its outcome is exactly the
fallback's outcome, up to the exception-path warning), and the fallback's
successful output is the same `" ".join(text.split())` normalization the
primary path applies (its trailing `.strip()` is a no-op). -/
theorem C6_fallback_invoked_same_normalization :
    (∀ (status : Nat) (tf : Option String) (doc : FallbackDoc), status ≠ 200 →
        extract_text_from_pdf (.resp status tf) doc = fallback_extract_text doc) ∧
    (∀ (m : String) (doc : FallbackDoc),
        (extract_text_from_pdf (.exn m) doc).1 = (fallback_extract_text doc).1) ∧
    (∀ ps : List String,
        (fallback_extract_text (.pages ps)).1 = pyNormalize (String.join ps)) := by
  refine ⟨?_, ?_, ?_⟩
  · intro status tf doc h
    show (if status = 200 then (pyNormalize (tf.getD ""), [])
        else fallback_extract_text doc) = fallback_extract_text doc
    rw [if_neg h]
  · intro m doc
    rfl
  · intro ps
    show pyStripS (pyNormalize (String.join ps)) = pyNormalize (String.join ps)
    exact pyStripS_pyNormalize _

/-- Claim C6 witness: a concrete 500 response falls back on the uploaded
document and normalizes its pages. -/
theorem C6_witness :
    (500 : Nat) ≠ 200 ∧
    extract_text_from_pdf (.resp 500 none) (.pages ["a  b"]) =
      fallback_extract_text (.pages ["a  b"]) :=
  ⟨by decide,
   C6_fallback_invoked_same_normalization.1 500 none (.pages ["a  b"]) (by decide)⟩

/-- Claim C7: extraction never fails outwardly — `extract_text_from_pdf`
is a total function into strings, and when the fallback itself throws
(on a non-200 response or after a transport exception) it returns the
empty string together with the user-visible extraction-error message. -/
theorem C7_extract_total_failure :
    (∀ (status : Nat) (tf : Option String) (fm : String), status ≠ 200 →
        extract_text_from_pdf (.resp status tf) (.exn fm) =
          ("", [Msg.error ("Error in text extraction: " ++ fm)])) ∧
    (∀ (m fm : String),
        extract_text_from_pdf (.exn m) (.exn fm) =
          ("", [Msg.warning "Using fallback PDF extraction method",
                Msg.error ("Error in text extraction: " ++ fm)])) := by
  constructor
  · intro status tf fm h
    show (if status = 200 then (pyNormalize (tf.getD ""), [])
        else fallback_extract_text (.exn fm)) = _
    rw [if_neg h]
    rfl
  · intro m fm
    rfl

/-- Claim C7 witness: both paths failing at a concrete input yields the
empty string plus the error message. -/
theorem C7_witness :
    (500 : Nat) ≠ 200 ∧
    extract_text_from_pdf (.resp 500 none) (.exn "bad pdf") =
      ("", [Msg.error ("Error in text extraction: " ++ "bad pdf")]) :=
  ⟨by decide, C7_extract_total_failure.1 500 none "bad pdf" (by decide)⟩

/-- Claim C8 counterexample: a 500 response makes the extractor fall back
(the outcome is exactly the fallback's outcome) yet the emitted message
list is empty — no user-visible warning accompanies the non-200 fallback,
contradicting the claim that every fallback emits a warning. -/
theorem C8_counterexample :
    extract_text_from_pdf (.resp 500 none) (.pages ["x"]) =
      fallback_extract_text (.pages ["x"]) ∧
    (extract_text_from_pdf (.resp 500 none) (.pages ["x"])).2 = [] := by
  constructor
  · rfl
  · decide

/-- Claim C8 amended: the fallback warning is emitted exactly on the
transport-exception path — a non-200 fallback adds no message of its own,
an exception prepends the warning — and when the fallback itself also
fails an error message is emitted. -/
theorem C8_amended_warning_only_on_exception :
    (∀ (status : Nat) (tf : Option String) (doc : FallbackDoc), status ≠ 200 →
        (extract_text_from_pdf (.resp status tf) doc).2 = (fallback_extract_text doc).2) ∧
    (∀ (m : String) (doc : FallbackDoc),
        (extract_text_from_pdf (.exn m) doc).2 =
          Msg.warning "Using fallback PDF extraction method" ::
            (fallback_extract_text doc).2) ∧
    (∀ fm : String, (fallback_extract_text (.exn fm)).2 =
        [Msg.error ("Error in text extraction: " ++ fm)]) := by
  refine ⟨?_, ?_, ?_⟩
  · intro status tf doc h
    show ((if status = 200 then (pyNormalize (tf.getD ""), [])
        else fallback_extract_text doc)).2 = _
    rw [if_neg h]
  · intro m doc
    rfl
  · intro fm
    rfl

/-- Claim C8 amended witness: concrete instances of the non-200 fallback
emitting nothing and the exception fallback emitting the warning. -/
theorem C8_witness :
    (500 : Nat) ≠ 200 ∧
    (extract_text_from_pdf (.resp 500 none) (.pages ["x"])).2 =
      (fallback_extract_text (.pages ["x"])).2 :=
  ⟨by decide,
   C8_amended_warning_only_on_exception.1 500 none (.pages ["x"]) (by decide)⟩

/-- Claim C5: the roadmap client returns the parsed body exactly on HTTP
200; a 404 surfaces the "Data Not Found" error and returns `None` (by the
implicit fall-through return); any other non-200 surfaces the generic
"API Error: code" and returns `None`; a transport exception surfaces its
message and returns `None`. -/
theorem C5_api_client_contract :
    (∀ body, call_visa_roadmap_api (.resp 200 body) = (some body, [])) ∧
    (∀ body, call_visa_roadmap_api (.resp 404 body) =
        (none, [Msg.error "API Error: Data Not Found (404)"])) ∧
    (∀ (status : Nat) (body : RoadmapResult), status ≠ 200 → status ≠ 404 →
        call_visa_roadmap_api (.resp status body) =
          (none, [Msg.error ("API Error: " ++ toString status)])) ∧
    (∀ m, call_visa_roadmap_api (.exn m) = (none, [Msg.error ("API Error: " ++ m)])) ∧
    (∀ (status : Nat) (body : RoadmapResult),
        (call_visa_roadmap_api (.resp status body)).1 = some body ↔ status = 200) := by
  have e : ∀ (status : Nat) (body : RoadmapResult),
      call_visa_roadmap_api (.resp status body) =
        (if status = 200 then (some body, ([] : List Msg))
         else if status = 404 then
           (none, [Msg.error ("API Error: Data Not Found (" ++ toString status ++ ")")])
         else (none, [Msg.error ("API Error: " ++ toString status)])) :=
    fun _ _ => rfl
  refine ⟨?_, ?_, ?_, ?_, ?_⟩
  · intro body
    rfl
  · intro body
    rw [e 404 body, if_neg (by decide : ¬ (404 : Nat) = 200),
       if_pos (rfl : (404 : Nat) = 404)]
    decide
  · intro status body h200 h404
    rw [e status body, if_neg h200, if_neg h404]
  · intro m
    rfl
  · intro status body
    rw [e status body]
    by_cases h200 : status = 200
    · rw [if_pos h200]
      simp [h200]
    · rw [if_neg h200]
      by_cases h404 : status = 404
      · rw [if_pos h404]
        simp [h200]
      · rw [if_neg h404]
        simp [h200]

/-- Claim C5 witness: a concrete 500 response yields null and the generic
API error message. -/
theorem C5_witness :
    (500 : Nat) ≠ 200 ∧ (500 : Nat) ≠ 404 ∧
    call_visa_roadmap_api (.resp 500 (.str "x")) =
      (none, [Msg.error ("API Error: " ++ toString (500 : Nat))]) :=
  ⟨by decide, by decide,
   C5_api_client_contract.2.2.1 500 (.str "x") (by decide) (by decide)⟩

/-- Claim C9: whenever the roadmap client returns null, neither Generate
handler renders any display section, produces a downloadable file, or
offers a download button. -/
theorem C9_null_result_never_rendered (o : ApiOutcome)
    (h : (call_visa_roadmap_api o).1 = none) :
    immigrationHandler (call_visa_roadmap_api o).1 =
      Except.ok { sections := [], download := none } ∧
    ∀ rt, nonImmigrationHandler rt (call_visa_roadmap_api o).1 =
      { sections := [], download := none } := by
  rw [h]
  exact ⟨rfl, fun rt => rfl⟩

/-- Claim C9 witness: a transport exception produces a null result and an
empty render in both handlers. -/
theorem C9_witness :
    (call_visa_roadmap_api (.exn "boom")).1 = none ∧
    immigrationHandler (call_visa_roadmap_api (.exn "boom")).1 =
      Except.ok { sections := [], download := none } :=
  ⟨rfl, (C9_null_result_never_rendered (.exn "boom") rfl).1⟩

/-- Claim C10: an HTTP 200 OCR response whose JSON body has no `text`
field makes the extractor return the empty string with no message, for
every uploaded document — the result does not depend on the fallback
document at all, so the fallback path is never invoked. -/
theorem C10_missing_text_field_returns_empty (doc : FallbackDoc) :
    extract_text_from_pdf (.resp 200 none) doc = ("", []) := rfl

/-- Claim C1 counterexample: for the Work category (selection string
"Work Visa") and the result "Apply via Express Entry...", the downloadable
rendering interpolates the full selection string, giving
"# Work Visa Roadmap", not the claimed "# Work Roadmap". -/
theorem C1_counterexample :
    create_pdf_content "Work Visa" (.str "Apply via Express Entry...") =
      "# Work Visa Roadmap\n\nApply via Express Entry..." ∧
    create_pdf_content "Work Visa" (.str "Apply via Express Entry...") ≠
      "# Work Roadmap\n\nApply via Express Entry..." := by
  constructor
  · rfl
  · decide

/-- Claim C1 amended: for every non-Immigration selection and non-empty
plain-string result, the downloadable rendering is exactly the heading
naming the full selected visa-type string, a blank line, and the raw
result — while the display rendering is the subheader plus the result
block, none of which is copied into the file beyond the raw result. -/
theorem C1_amended_download_rendering (rt s : String) (h : s ≠ "") :
    (nonImmigrationHandler rt (some (.str s))).download =
      some ("# " ++ rt ++ " Roadmap\n\n" ++ s, downloadFileName rt) ∧
    (nonImmigrationHandler rt (some (.str s))).sections =
      [DisplayItem.subheader ("Your " ++ rt ++ " Roadmap"),
       DisplayItem.markdownResult (.str s)] := by
  have hs : s.data ≠ [] := by
    intro hd
    apply h
    cases s with
    | mk d => cases hd; rfl
  have ht : pyTruthy (some (.str s)) = true := by
    show (!s.data.isEmpty) = true
    cases hd : s.data with
    | nil => exact absurd hd hs
    | cons c l => rfl
  have e : nonImmigrationHandler rt (some (.str s)) =
      (if pyTruthy (some (.str s)) then
        { sections := [DisplayItem.subheader ("Your " ++ rt ++ " Roadmap"),
                       DisplayItem.markdownResult (.str s)],
          download := some (create_pdf_content rt (.str s), downloadFileName rt) }
       else { sections := [], download := none }) := rfl
  rw [e, if_pos ht]
  exact ⟨rfl, rfl⟩

/-- Claim C1 amended witness: the concrete Work Visa scenario produces
the file content "# Work Visa Roadmap", a blank line and the raw result. -/
theorem C1_witness :
    ("Apply via Express Entry..." : String) ≠ "" ∧
    (nonImmigrationHandler "Work Visa"
        (some (.str "Apply via Express Entry..."))).download =
      some ("# Work Visa Roadmap\n\nApply via Express Entry...",
            "work visa_roadmap.pdf") := by
  constructor
  · decide
  · rw [(C1_amended_download_rendering "Work Visa" "Apply via Express Entry..."
      (by decide)).1]
    decide

/-- Claim C2 counterexample: for the Work category the download button's
file name is "work visa_roadmap.pdf" — the whole selection string
lower-cased, space included — not the claimed "work_roadmap.pdf". -/
theorem C2_counterexample :
    (nonImmigrationHandler "Work Visa" (some (.str "x"))).download =
      some ("# Work Visa Roadmap\n\nx", "work visa_roadmap.pdf") ∧
    downloadFileName "Work Visa" ≠ "work_roadmap.pdf" := by
  constructor
  · decide
  · decide

/-- Claim C2 amended: the downloadable file is named by lower-casing the
full selection string and appending "_roadmap.pdf" — giving
"study visa_roadmap.pdf", "travel visa_roadmap.pdf",
"work visa_roadmap.pdf" — and the hard-coded "immigration_roadmap.pdf"
for the Immigration case. -/
theorem C2_amended_file_names :
    (∀ (q jr cs rm : String) (nc : List String),
        (immigrationHandler (some (.dict ⟨some q, some jr, some nc, some cs,
            some rm⟩))).map (fun o => o.download.map Prod.snd) =
          Except.ok (some "immigration_roadmap.pdf")) ∧
    ((nonImmigrationHandler "Study Visa" (some (.str "x"))).download.map Prod.snd =
        some "study visa_roadmap.pdf") ∧
    ((nonImmigrationHandler "Travel Visa" (some (.str "x"))).download.map Prod.snd =
        some "travel visa_roadmap.pdf") ∧
    ((nonImmigrationHandler "Work Visa" (some (.str "x"))).download.map Prod.snd =
        some "work visa_roadmap.pdf") := by
  refine ⟨fun q jr cs rm nc => rfl, by decide, by decide, by decide⟩

/-- Claim C3 (code bug): on an Immigration result missing the roadmap key
(here a dict holding only the questionnaire), the live Generate handler
raises KeyError instead of rendering; the unused helper
`convert_dict_to_markdown` on the same input produces exactly the five
labeled sections the spec describes, without failing. -/
theorem C3_immigration_display_keyerror :
    immigrationHandler (some (.dict ⟨some "q", none, none, none, none⟩)) =
      Except.error "KeyError: roadmap" ∧
    sectionCount (convert_dict_to_markdown ⟨some "q", none, none, none, none⟩) = 5 := by
  constructor
  · rfl
  · decide

end VisaRoadmap
